import Mathlib

/-!
Verification of the coordination core of the discord-message-stream relay.

The definitions below are a shallow embedding of the Supabase edge functions
in src/supabase/functions (worker-push, worker-pull, and the trade-executor
document bundled with worker-push).  Database tables are embedded as Lean
lists of row structures, each action handler as a pure state-transition
function.  JavaScript numbers carrying prices and percentages are embedded
as rationals; timestamps as integers (milliseconds).
-/

namespace DiscordStream

/-- Signal categories returned by the parse-signal classifier
(worker-push/index.ts line 5). -/
inductive SignalType where
  | ca
  | leverage_trade
  | alpha_call
  | skip
deriving DecidableEq, Repr

/-- Result shape of the classifier call (worker-push/index.ts lines 4-7). -/
structure ParseResult where
  type : SignalType
  formatted : Option String
deriving DecidableEq, Repr

/-- Outcome of the HTTP call to the parse-signal function, seen from
worker-push: the fetch can throw (network error / timeout), return a
non-2xx response, or return a parsed body. -/
inductive ClassifierOutcome where
  | netError
  | httpError
  | ok (result : ParseResult)
deriving DecidableEq, Repr

/-- Embedding of parseSignal (worker-push/index.ts lines 4-30):
a non-2xx response yields category skip with no formatting; a thrown
fetch error yields alpha_call carrying the original text; otherwise the
response body is returned as-is. -/
def parseSignal (outcome : ClassifierOutcome) (messageText : String) : ParseResult :=
  match outcome with
  | .httpError => { type := .skip, formatted := none }
  | .netError => { type := .alpha_call, formatted := some messageText }
  | .ok r => r

/-- Status column of message_queue rows. -/
inductive MsgStatus where
  | pending
  | sent
  | failed
  | rejected
deriving DecidableEq, Repr

/-- Row of the message_queue table (schema in the generated database
types; fields used by worker-push and worker-pull). -/
structure QueuedMessage where
  id : Nat
  fingerprint : String
  channel_id : String
  message_text : String
  author_name : String
  status : MsgStatus
  retry_count : Nat
  error_message : Option String
  created_at : Int
deriving DecidableEq, Repr

/-- Row of the discord_channels table (fields used by worker-push). -/
structure Channel where
  id : String
  name : String
  last_message_fingerprint : Option String
  last_message_at : Option Int
  message_count : Nat
deriving DecidableEq, Repr

/-- State touched by the worker-push message-queue actions: the
message_queue and discord_channels tables, the tracked_authors
whitelist, and the ai_parser_enabled relay setting.  nextId supplies
fresh row ids for inserts. -/
structure PushState where
  message_queue : List QueuedMessage
  channels : List Channel
  tracked_authors : List String
  parserEnabled : Bool
  nextId : Nat
deriving DecidableEq, Repr

/-- Cursor update performed by push_message on every branch
(worker-push/index.ts lines 90-96, 138-144, 184-190): set the channel
row's last_message_fingerprint and last_message_at. -/
def advanceCursor (s : PushState) (channel_id fingerprint : String) (now : Int) : PushState :=
  { s with channels := s.channels.map fun c =>
      if c.id == channel_id then
        { c with last_message_fingerprint := some fingerprint, last_message_at := some now }
      else c }

/-- Message-count bump done through the increment_message_count RPC on
the accept branch (worker-push/index.ts line 195). -/
def incrementMessageCount (s : PushState) (channel_id : String) : PushState :=
  { s with channels := s.channels.map fun c =>
      if c.id == channel_id then { c with message_count := c.message_count + 1 } else c }

/-- Response of the push_message action, restricted to the three
success shapes it returns (duplicate, skipped-as-noise, accepted). -/
inductive PushResult where
  | duplicate
  | skipped
  | accepted (signalType : SignalType)
deriving DecidableEq, Repr

/-- Finalised message text: parsed.formatted falls back to the original
text when null or empty (worker-push/index.ts line 165, JavaScript
disjunction treats the empty string as falsy). -/
def finalText (formatted : Option String) (message_text : String) : String :=
  match formatted with
  | some t => if t == "" then message_text else t
  | none => message_text

/-- Embedding of the push_message action (worker-push/index.ts lines
69-221).  The classifier call is passed in as the function classify;
everything else follows the source: duplicate check on the fingerprint,
tracked-author whitelist (case-insensitive), ai_parser_enabled gate,
skip branch for classifier noise, and the insert + cursor advance +
message-count bump on acceptance. -/
def push_message (s : PushState) (classify : String → String → ParseResult)
    (channel_id fingerprint message_text author_name : String) (now : Int) :
    PushState × PushResult :=
  if s.message_queue.any (fun m => m.fingerprint == fingerprint) then
    (advanceCursor s channel_id fingerprint now, .duplicate)
  else
    let isTrackedAuthor := s.tracked_authors.any
      (fun u => u.toLower == author_name.toLower)
    let parsed : ParseResult :=
      if isTrackedAuthor then { type := .alpha_call, formatted := some message_text }
      else if s.parserEnabled then classify message_text author_name
      else { type := .alpha_call, formatted := some message_text }
    if parsed.type == .skip && !isTrackedAuthor then
      (advanceCursor s channel_id fingerprint now, .skipped)
    else
      let row : QueuedMessage :=
        { id := s.nextId
          fingerprint := fingerprint
          channel_id := channel_id
          message_text := finalText parsed.formatted message_text
          author_name := author_name
          status := .pending
          retry_count := 0
          error_message := none
          created_at := now }
      let s1 : PushState :=
        { s with message_queue := s.message_queue ++ [row], nextId := s.nextId + 1 }
      let s2 := advanceCursor s1 channel_id fingerprint now
      (incrementMessageCount s2 channel_id, .accepted parsed.type)

/-- Embedding of the mark_failed action (worker-push/index.ts lines
295-318): read the row's retry_count, then set status to failed when
that prior count is at least 3 (else keep pending), record the error,
and store retry_count + 1. -/
def mark_failed (s : PushState) (message_id : Nat) (error_message : String) : PushState :=
  let r := (((s.message_queue.find? fun m => m.id == message_id).map
    QueuedMessage.retry_count).getD 0)
  { s with message_queue := s.message_queue.map fun m =>
      if m.id == message_id then
        { m with
          status := if r ≥ 3 then .failed else .pending
          error_message := some error_message
          retry_count := r + 1 }
      else m }

/-- Embedding of the mark_sent action (worker-push/index.ts lines
277-293): set status to sent and record sent_at (the latter is not
modelled in the row). -/
def mark_sent (s : PushState) (message_id : Nat) : PushState :=
  { s with message_queue := s.message_queue.map fun m =>
      if m.id == message_id then { m with status := .sent } else m }

/-- Embedding of the get_pending_messages query (worker-pull/index.ts
lines 56-81): rows with status pending and retry_count below 3,
ordered by created_at, capped at 10. -/
def get_pending_messages (s : PushState) : List QueuedMessage :=
  (((s.message_queue.filter fun m => m.status == .pending && m.retry_count < 3).mergeSort
    fun a b => a.created_at ≤ b.created_at).take 10)

/-- Cursor read-back helper: the last_message_fingerprint of the first
channel row with the given id. -/
def getCursor (s : PushState) (channel_id : String) : Option String :=
  (s.channels.find? fun c => c.id == channel_id).bind Channel.last_message_fingerprint

/-- Status column of the trades table, as the edge functions write it
(pending_sigma initial, then bought, partial_tp1, sold, failed). -/
inductive TradeStatus where
  | pending_sigma
  | bought
  | partial_tp1
  | sold
  | failed
deriving DecidableEq, Repr

/-- Row of the trades table (columns from the migrations and the fields
the worker functions read and write). -/
structure Trade where
  id : Nat
  contract_address : String
  token_symbol : Option String
  chain : String
  channel_id : String
  channel_name : String
  message_fingerprint : String
  author_name : String
  allocation_sol : ℚ
  stop_loss_pct : ℚ
  take_profit_1_pct : ℚ
  take_profit_2_pct : ℚ
  status : TradeStatus
  created_at : Int
  entry_price : Option ℚ
  current_price : Option ℚ
  highest_price : Option ℚ
  trailing_stop_enabled : Bool
  trailing_stop_pct : Option ℚ
  time_based_sell_at : Option Int
  retry_count : Nat
  error_message : Option String
  realized_pnl_sol : Option ℚ
  buy_tx_hash : Option String
  sell_tx_hash : Option String
deriving DecidableEq, Repr

/-- Status column of sell_requests rows. -/
inductive SellStatus where
  | pending
  | executed
  | failed
deriving DecidableEq, Repr

/-- Row of the sell_requests table (migration creating it, and the
fields trigger_auto_sell and update_sell_executed touch). -/
structure SellRequest where
  id : Nat
  trade_id : Nat
  percentage : ℚ
  slippage_bps : Nat
  status : SellStatus
  tx_hash : Option String
  realized_sol : Option ℚ
  error_message : Option String
deriving DecidableEq, Repr

/-- State touched by the worker-pull trade and sell actions: the trades
and sell_requests tables.  nextSellId supplies fresh sell-request ids. -/
structure PullState where
  trades : List Trade
  sell_requests : List SellRequest
  nextSellId : Nat
deriving DecidableEq, Repr

/-- Response of the trigger_auto_sell action (worker-pull/index.ts
lines 428-460): either the failure body with error "Sell already
pending", or success carrying the new row's id. -/
inductive SellResult where
  | alreadyPending (error : String)
  | created (sell_id : Nat)
deriving DecidableEq, Repr

/-- Embedding of the trigger_auto_sell action (worker-pull/index.ts
lines 415-461): look for a sell_requests row with this trade_id and
status pending; if one exists return the failure without writing;
otherwise insert one new pending row with the requested percentage and
slippage_bps 150 and return its id. -/
def trigger_auto_sell (s : PullState) (trade_id : Nat) (percentage : ℚ) :
    PullState × SellResult :=
  if s.sell_requests.any (fun r => r.trade_id == trade_id && r.status == .pending) then
    (s, .alreadyPending "Sell already pending")
  else
    let row : SellRequest :=
      { id := s.nextSellId
        trade_id := trade_id
        percentage := percentage
        slippage_bps := 150
        status := .pending
        tx_hash := none
        realized_sol := none
        error_message := none }
    ({ s with
        sell_requests := s.sell_requests ++ [row]
        nextSellId := s.nextSellId + 1 },
     .created s.nextSellId)

/-- Embedding of the update_sell_executed action (worker-pull/index.ts
lines 536-591): set the sell row to executed with its transaction and
realized amount; then, when the row's percentage is 100, set the parent
trade to sold with realized PnL computed against its allocation. -/
def update_sell_executed (s : PullState) (sell_id : Nat) (tx_hash : String)
    (realized_sol : ℚ) : PullState :=
  let s1 : PullState := { s with sell_requests := s.sell_requests.map fun r =>
      if r.id == sell_id then
        { r with status := .executed, tx_hash := some tx_hash,
                 realized_sol := some realized_sol }
      else r }
  match s1.sell_requests.find? (fun r => r.id == sell_id) with
  | none => s1
  | some sellReq =>
    if sellReq.percentage == 100 then
      let pnl := realized_sol -
        (((s1.trades.find? fun t => t.id == sellReq.trade_id).map
          Trade.allocation_sol).getD 0)
      { s1 with trades := s1.trades.map fun t =>
          if t.id == sellReq.trade_id then
            { t with status := .sold, realized_pnl_sol := some pnl,
                     sell_tx_hash := some tx_hash }
          else t }
    else s1

/-- Embedding of the update_sell_failed action (worker-pull/index.ts
lines 593-612). -/
def update_sell_failed (s : PullState) (sell_id : Nat) (error_message : String) :
    PullState :=
  { s with sell_requests := s.sell_requests.map fun r =>
      if r.id == sell_id then
        { r with status := .failed, error_message := some error_message }
      else r }

/-- Exit actions that the update_position_price handler can report. -/
inductive PriceAction where
  | stop_loss
  | take_profit_1
  | take_profit_2
deriving DecidableEq, Repr

/-- Response of the update_position_price action. -/
structure PriceUpdateResult where
  success : Bool
  pnl_pct : Option ℚ
  action_needed : Option PriceAction
  sell_percentage : ℚ
deriving DecidableEq, Repr

/-- Entry-price guard of update_position_price: the JavaScript test
!trade.entry_price is true when the column is null or zero. -/
def entryPriceMissing (t : Trade) : Bool :=
  match t.entry_price with
  | none => true
  | some p => p == 0

/-- Embedding of the update_position_price action (worker-pull/index.ts
lines 357-413): find the trade, fail without side effects when it or
its entry price is missing, compute pnl_pct, write current_price, then
report the first matching trigger: stop-loss (sell 100), TP1 when still
bought (sell 50), TP2 when already partial_tp1 (sell 100), else none. -/
def update_position_price (trades : List Trade) (trade_id : Nat) (current_price : ℚ) :
    List Trade × PriceUpdateResult :=
  match trades.find? (fun t => t.id == trade_id) with
  | none => (trades, { success := false, pnl_pct := none, action_needed := none,
                       sell_percentage := 0 })
  | some trade =>
    if entryPriceMissing trade then
      (trades, { success := false, pnl_pct := none, action_needed := none,
                 sell_percentage := 0 })
    else
      let ep := trade.entry_price.getD 0
      let pnlPct := (current_price - ep) / ep * 100
      let trades' := trades.map fun t =>
        if t.id == trade_id then { t with current_price := some current_price } else t
      if pnlPct ≤ trade.stop_loss_pct then
        (trades', { success := true, pnl_pct := some pnlPct,
                    action_needed := some .stop_loss, sell_percentage := 100 })
      else if trade.status = .bought ∧ pnlPct ≥ trade.take_profit_1_pct then
        (trades', { success := true, pnl_pct := some pnlPct,
                    action_needed := some .take_profit_1, sell_percentage := 50 })
      else if trade.status = .partial_tp1 ∧ pnlPct ≥ trade.take_profit_2_pct then
        (trades', { success := true, pnl_pct := some pnlPct,
                    action_needed := some .take_profit_2, sell_percentage := 100 })
      else
        (trades', { success := true, pnl_pct := some pnlPct,
                    action_needed := none, sell_percentage := 0 })

/-- Row of the trading_config table (fields execute_trade reads). -/
structure TradingConfig where
  channel_pattern : String
  enabled : Bool
  allocation_sol : ℚ
  stop_loss_pct : ℚ
  take_profit_1_pct : ℚ
  take_profit_2_pct : ℚ
deriving DecidableEq, Repr

/-- State touched by the execute_trade action: trading_config and the
trades table.  nextTradeId supplies fresh trade ids. -/
structure TradeState where
  trading_config : List TradingConfig
  trades : List Trade
  nextTradeId : Nat
deriving DecidableEq, Repr

/-- Response of the execute_trade action: failure reasons
trading_not_enabled, no_ca_found and duplicate_trade, or success with
the created trade's id. -/
inductive TradeResult where
  | notEnabled
  | noCaFound
  | duplicateTrade (trade_id : Nat)
  | created (trade_id : Nat)
deriving DecidableEq, Repr

/-- Embedding of the execute_trade action (trade-executor document of
worker-push/index.ts, lines 918-1025).  The address and symbol
extraction helpers (extractContractAddress / extractTokenSymbol,
regex-based string scans) are passed in as functions; the handler
itself: look up an enabled trading_config row for the channel name,
extract the contract address, reject when a trade for that address was
created within the last five minutes (300000 ms), else insert exactly
one new trade with the config's allocation and thresholds snapshotted
and status pending_sigma. -/
def execute_trade (extractCA extractSymbol : String → Option String)
    (s : TradeState) (message_text channel_name channel_id fingerprint author_name : String)
    (now : Int) : TradeState × TradeResult :=
  match s.trading_config.find? (fun c => c.channel_pattern == channel_name && c.enabled) with
  | none => (s, .notEnabled)
  | some config =>
    match extractCA message_text with
    | none => (s, .noCaFound)
    | some contractAddress =>
      let fiveMinutesAgo : Int := now - 5 * 60 * 1000
      match s.trades.find? (fun t =>
          t.contract_address == contractAddress && decide (fiveMinutesAgo ≤ t.created_at)) with
      | some t => (s, .duplicateTrade t.id)
      | none =>
        let trade : Trade :=
          { id := s.nextTradeId
            contract_address := contractAddress
            token_symbol := extractSymbol message_text
            chain := if contractAddress.startsWith "0x" then "ethereum" else "solana"
            channel_id := channel_id
            channel_name := channel_name
            message_fingerprint := fingerprint
            author_name := author_name
            allocation_sol := config.allocation_sol
            stop_loss_pct := config.stop_loss_pct
            take_profit_1_pct := config.take_profit_1_pct
            take_profit_2_pct := config.take_profit_2_pct
            status := .pending_sigma
            created_at := now
            entry_price := none
            current_price := none
            highest_price := none
            trailing_stop_enabled := false
            trailing_stop_pct := none
            time_based_sell_at := none
            retry_count := 0
            error_message := none
            realized_pnl_sol := none
            buy_tx_hash := none
            sell_tx_hash := none }
        ({ s with trades := s.trades ++ [trade], nextTradeId := s.nextTradeId + 1 },
         .created s.nextTradeId)

/-- Kinds of routing decision in the spec's routing-policy contract. -/
inductive RouteKind where
  | skip
  | relay
  | relay_raw
deriving DecidableEq, Repr

/-- Routing decision together with the text to relay. -/
structure RouteResult where
  kind : RouteKind
  text : String
deriving DecidableEq, Repr

/-- Classifier call as the routing policy sees it: an infrastructure
failure, or a category with optional formatted text. -/
inductive ClassifierCall where
  | failure
  | result (category : SignalType) (formatted : Option String)
deriving DecidableEq, Repr

/-- Modelled from the spec: the banned-author and channel-bypass checks
of the routing policy run in the Python worker
(worker/discord_telegram_relay.py, listed by worker/README.md but not
present under src/; src/ holds only the banned_authors table, the
get_banned_authors endpoint feeding it to the worker, and the
discord_channels.bypass_parser column).  The full policy follows spec
section 4.2: banned author skips unconditionally; tracked author,
channel bypass flag, or a disabled classifier relay the raw text; a
classifier failure fails open to the raw text; a classifier skip
category skips; any other category relays the formatted text, falling
back to the original.  Author-list membership is case-insensitive. -/
def route (banned tracked : List String) (author : String)
    (bypassFlag parserEnabled : Bool) (classifier : ClassifierCall) (text : String) :
    RouteResult :=
  if banned.any (fun u => u.toLower == author.toLower) then
    { kind := .skip, text := text }
  else if tracked.any (fun u => u.toLower == author.toLower) then
    { kind := .relay_raw, text := text }
  else if bypassFlag then
    { kind := .relay_raw, text := text }
  else if !parserEnabled then
    { kind := .relay_raw, text := text }
  else
    match classifier with
    | .failure => { kind := .relay_raw, text := text }
    | .result .skip _ => { kind := .skip, text := text }
    | .result _ f => { kind := .relay, text := f.getD text }

/-- Exit actions of the spec's price trigger evaluator. -/
inductive ExitAction where
  | noAction
  | stop_loss
  | take_profit_1
  | take_profit_2
  | trailing_stop
  | time_exit
deriving DecidableEq, Repr

/-- Evaluator result: exit action plus percentage of the position to
liquidate. -/
structure EvalResult where
  action : ExitAction
  sell_percentage : ℚ
deriving DecidableEq, Repr

/-- Modelled from the spec: the highest-price ratchet of the position
monitor runs in the Python worker (worker/discord_telegram_relay.py,
absent from src/; the trades.highest_price column it maintains is added
by the auto-sell migration).  Spec section 4.4: write current_price,
and when current_price exceeds the stored highest_price, or
highest_price is unset, set highest_price to current_price. -/
def applyPriceTick (t : Trade) (current_price : ℚ) : Trade :=
  { t with
      current_price := some current_price
      highest_price :=
        match t.highest_price with
        | none => some current_price
        | some h => if current_price > h then some current_price else some h }

/-- Trailing-stop condition: trailing stop enabled and current_price at
or below highest_price times (1 - trailing_stop_pct / 100). -/
def trailingHit (t : Trade) (current_price : ℚ) : Bool :=
  t.trailing_stop_enabled &&
    match t.highest_price with
    | some hp => decide (current_price ≤ hp * (1 - t.trailing_stop_pct.getD 0 / 100))
    | none => false

/-- Time-based-exit condition: a deadline is set and now has reached it. -/
def timeExitDue (t : Trade) (now : Int) : Bool :=
  match t.time_based_sell_at with
  | some deadline => decide (deadline ≤ now)
  | none => false

/-- Modelled from the spec: the trailing-stop and time-based-exit rules
of the position monitor run in the Python worker
(worker/discord_telegram_relay.py, absent from src/; src/ holds only
the trailing_stop and time_based_sell columns its migration adds, and
the stop-loss/TP1/TP2 subset in update_position_price).  Spec section
4.4, strict precedence, first match wins: stop-loss, trailing stop,
time-based exit, TP1 when bought, TP2 when partial_tp1, else none. -/
def evaluateTriggers (t : Trade) (current_price : ℚ) (now : Int) : EvalResult :=
  let ep := t.entry_price.getD 0
  let pnl_pct := (current_price - ep) / ep * 100
  if pnl_pct ≤ t.stop_loss_pct then
    { action := .stop_loss, sell_percentage := 100 }
  else if trailingHit t current_price then
    { action := .trailing_stop, sell_percentage := 100 }
  else if timeExitDue t now then
    { action := .time_exit, sell_percentage := 100 }
  else if t.status = .bought ∧ pnl_pct ≥ t.take_profit_1_pct then
    { action := .take_profit_1, sell_percentage := 50 }
  else if t.status = .partial_tp1 ∧ pnl_pct ≥ t.take_profit_2_pct then
    { action := .take_profit_2, sell_percentage := 100 }
  else
    { action := .noAction, sell_percentage := 0 }

/-- Modelled from the spec: one price tick of the position monitor,
ratchet first, then trigger evaluation on the updated trade. -/
def evaluate (t : Trade) (current_price : ℚ) (now : Int) : Trade × EvalResult :=
  let t1 := applyPriceTick t current_price
  (t1, evaluateTriggers t1 current_price now)

/-- Existence of a pending sell_requests row for a trade, exactly the
query trigger_auto_sell makes. -/
def hasPendingSell (s : PullState) (trade_id : Nat) : Bool :=
  s.sell_requests.any fun r => r.trade_id == trade_id && r.status == .pending

/-- Number of pending sell_requests rows for a trade. -/
def pendingSellCount (s : PullState) (trade_id : Nat) : Nat :=
  s.sell_requests.countP fun r => r.trade_id == trade_id && r.status == .pending

/-- Concrete pending sell request used by witnesses. -/
def wSellRow : SellRequest :=
  { id := 3
    trade_id := 7
    percentage := 100
    slippage_bps := 150
    status := .pending
    tx_hash := none
    realized_sol := none
    error_message := none }

/-- Concrete sell state with one pending request for trade 7. -/
def wSellState : PullState :=
  { trades := []
    sell_requests := [wSellRow]
    nextSellId := 4 }

/-- Concrete empty sell state. -/
def wSellState0 : PullState :=
  { trades := []
    sell_requests := []
    nextSellId := 0 }

/-- Concrete channel row used by push witnesses. -/
def wChannel : Channel :=
  { id := "ch1"
    name := "general"
    last_message_fingerprint := none
    last_message_at := none
    message_count := 0 }

/-- Concrete push state: one channel, empty queue, no tracked authors,
classifier enabled. -/
def wPushState : PushState :=
  { message_queue := []
    channels := [wChannel]
    tracked_authors := []
    parserEnabled := true
    nextId := 0 }

/-- Classifier stub returning the skip category. -/
def wClassifySkip : String → String → ParseResult :=
  fun _ _ => { type := .skip, formatted := none }

/-- Classifier stub behaving as parseSignal does on a non-2xx response. -/
def wClassifyHttpFail : String → String → ParseResult :=
  fun mt _ => parseSignal .httpError mt

/-- Classifier stub behaving as parseSignal does on a thrown fetch
error. -/
def wClassifyNetFail : String → String → ParseResult :=
  fun mt _ => parseSignal .netError mt

/-- Classifier stub returning a contract-address signal. -/
def wClassifyCa : String → String → ParseResult :=
  fun _ _ => { type := .ca, formatted := some "formatted" }

/-- Concrete queue row at retry_count 2 used by the retry-cap
counterexample. -/
def wRetryRow : QueuedMessage :=
  { id := 0
    fingerprint := "f"
    channel_id := "ch1"
    message_text := "m"
    author_name := "a"
    status := .pending
    retry_count := 2
    error_message := none
    created_at := 0 }

/-- Concrete push state holding wRetryRow, and a second row already at
the retry cap. -/
def wRetryState : PushState :=
  { message_queue := [wRetryRow, { wRetryRow with id := 1, fingerprint := "g", retry_count := 3 }]
    channels := [wChannel]
    tracked_authors := []
    parserEnabled := true
    nextId := 2 }

/-- Concrete trade realising the spec's stop-loss precedence example:
bought at entry price 0.001 with stop-loss -30%, TP1 100%. -/
def wTradeSL : Trade :=
  { id := 1
    contract_address := "CA"
    token_symbol := none
    chain := "solana"
    channel_id := "ch1"
    channel_name := "alpha"
    message_fingerprint := "f"
    author_name := "a"
    allocation_sol := 1
    stop_loss_pct := -30
    take_profit_1_pct := 100
    take_profit_2_pct := 200
    status := .bought
    created_at := 0
    entry_price := some (1/1000)
    current_price := none
    highest_price := none
    trailing_stop_enabled := false
    trailing_stop_pct := none
    time_based_sell_at := none
    retry_count := 0
    error_message := none
    realized_pnl_sol := none
    buy_tx_hash := none
    sell_tx_hash := none }

/-- Concrete trade with the trailing stop armed: entry 1, highest seen
2, trailing 15%, stop-loss -50%. -/
def wTradeTrail : Trade :=
  { wTradeSL with
      entry_price := some 1
      stop_loss_pct := -50
      take_profit_1_pct := 100
      highest_price := some 2
      trailing_stop_enabled := true
      trailing_stop_pct := some 15 }

/-- Concrete trading configuration for channel "alpha". -/
def wConfig : TradingConfig :=
  { channel_pattern := "alpha"
    enabled := true
    allocation_sol := 1
    stop_loss_pct := -30
    take_profit_1_pct := 100
    take_profit_2_pct := 200 }

/-- Concrete trade state: config for "alpha" and one trade on CA123
created at time 0. -/
def wTradeState : TradeState :=
  { trading_config := [wConfig]
    trades := [{ wTradeSL with id := 0, contract_address := "CA123" }]
    nextTradeId := 1 }

/-- Extraction stub returning the fixed address CA123. -/
def wExtractCA : String → Option String :=
  fun _ => some "CA123"

/-- Extraction stub returning no token symbol. -/
def wExtractNone : String → Option String :=
  fun _ => none

/-! ## Helper lemmas -/

lemma sell_requests_update_sell_executed (s : PullState) (sell_id : Nat)
    (tx_hash : String) (realized_sol : ℚ) :
    (update_sell_executed s sell_id tx_hash realized_sol).sell_requests =
      s.sell_requests.map fun r =>
        if r.id == sell_id then
          { r with status := .executed, tx_hash := some tx_hash,
                   realized_sol := some realized_sol }
        else r := by
  unfold update_sell_executed
  dsimp only
  split
  · rfl
  · split <;> rfl

lemma nextSellId_update_sell_executed (s : PullState) (sell_id : Nat)
    (tx_hash : String) (realized_sol : ℚ) :
    (update_sell_executed s sell_id tx_hash realized_sol).nextSellId = s.nextSellId := by
  unfold update_sell_executed
  dsimp only
  split
  · rfl
  · split <;> rfl

/-! ## Claim theorems -/

/-- C1, sell singleton: when a pending SellRequest for the trade
already exists, trigger_auto_sell answers with error "Sell already
pending" and leaves the state unchanged; otherwise it appends exactly
one new pending row and returns its id; one step preserves the
at-most-one-pending-per-trade invariant; and once the unique pending
row for the trade is marked executed by update_sell_executed, a
subsequent trigger_auto_sell for that trade succeeds again. -/
theorem sell_singleton (s : PullState) (tid rid : Nat) (pct : ℚ) (tx : String) (amt : ℚ) :
    (hasPendingSell s tid = true →
      trigger_auto_sell s tid pct = (s, .alreadyPending "Sell already pending")) ∧
    (hasPendingSell s tid = false →
      (trigger_auto_sell s tid pct).2 = .created s.nextSellId ∧
      (trigger_auto_sell s tid pct).1.sell_requests =
        s.sell_requests ++
          [{ id := s.nextSellId, trade_id := tid, percentage := pct, slippage_bps := 150,
             status := .pending, tx_hash := none, realized_sol := none,
             error_message := none }]) ∧
    ((∀ T, pendingSellCount s T ≤ 1) →
      ∀ T, pendingSellCount (trigger_auto_sell s tid pct).1 T ≤ 1) ∧
    ((∀ x ∈ s.sell_requests, x.trade_id = tid → x.status = .pending → x.id = rid) →
      hasPendingSell (update_sell_executed s rid tx amt) tid = false ∧
      (trigger_auto_sell (update_sell_executed s rid tx amt) tid pct).2 =
        .created (update_sell_executed s rid tx amt).nextSellId) := by
  have hunfold : ∀ s' : PullState,
      (s'.sell_requests.any fun r => r.trade_id == tid && r.status == .pending) =
        hasPendingSell s' tid := fun _ => rfl
  refine ⟨?_, ?_, ?_, ?_⟩
  · intro h
    simp only [trigger_auto_sell, hunfold, h, if_true]
  · intro h
    simp only [trigger_auto_sell, hunfold, h, Bool.false_eq_true, if_false]
    constructor <;> trivial
  · intro hinv T
    by_cases h : hasPendingSell s tid = true
    · simp only [trigger_auto_sell, hunfold, h, if_true]
      exact hinv T
    · rw [Bool.not_eq_true] at h
      simp only [trigger_auto_sell, hunfold, h, Bool.false_eq_true, if_false]
      unfold pendingSellCount at hinv ⊢
      dsimp only
      rw [List.countP_append]
      have hone : List.countP
          (fun r => r.trade_id == T && r.status == SellStatus.pending)
          [({ id := s.nextSellId, trade_id := tid, percentage := pct, slippage_bps := 150,
              status := .pending, tx_hash := none, realized_sol := none,
              error_message := none } : SellRequest)] =
          if tid = T then 1 else 0 := by
        by_cases hT : tid = T <;>
          simp [List.countP_cons, hT]
      rw [hone]
      by_cases hT : tid = T
      · subst hT
        have hzero : List.countP
            (fun r => r.trade_id == tid && r.status == SellStatus.pending)
            s.sell_requests = 0 := by
          rw [List.countP_eq_zero]
          have := List.any_eq_false.mp (by rw [hasPendingSell] at h; exact h)
          exact fun a ha => by simpa using this a ha
        rw [if_pos rfl]
        omega
      · simp only [hT, if_false]
        have := hinv T
        omega
  · intro h4
    have hnone : hasPendingSell (update_sell_executed s rid tx amt) tid = false := by
      rw [hasPendingSell, sell_requests_update_sell_executed, List.any_eq_false]
      intro x hx
      rw [List.mem_map] at hx
      obtain ⟨y, hy, rfl⟩ := hx
      by_cases hid : (y.id == rid) = true
      · simp [hid]
      · simp only [Bool.not_eq_true] at hid
        simp only [hid, Bool.false_eq_true, if_false, Bool.and_eq_true, beq_iff_eq,
          not_and]
        intro h1 h2
        have := h4 y hy h1 h2
        simp [this] at hid
    refine ⟨hnone, ?_⟩
    simp only [trigger_auto_sell, hunfold, hnone, Bool.false_eq_true, if_false]

/-- Witness for C1 at a concrete state: trade 7 has a pending sell
request, so a second trigger_auto_sell is rejected. -/
theorem sell_singleton_witness :
    hasPendingSell wSellState 7 = true ∧
    trigger_auto_sell wSellState 7 100 = (wSellState, .alreadyPending "Sell already pending") :=
  ⟨by decide, (sell_singleton wSellState 7 3 100 "tx" 0).1 (by decide)⟩

/-- C5 counterexample: a message at retry_count 2 that receives
mark_failed reaches the cap of 3 yet stays pending, so "failed exactly
when the resulting retry_count is at or above 3" is false; and a
message already at the cap receiving mark_failed ends at retry_count 4,
so the count does exceed the cap. -/
theorem retry_cap_counterexample :
    (∃ x ∈ (mark_failed wRetryState 0 "send failed").message_queue,
      x.retry_count = 3 ∧ x.status = .pending) ∧
    (∃ x ∈ (mark_failed wRetryState 1 "send failed").message_queue,
      x.status = .failed ∧ 3 < x.retry_count) := by
  decide

/-- C5 amended, retry cap: mark_failed stores retry_count + 1 and sets
status to failed exactly when the prior retry_count was already at or
above 3 (so the row that first reaches 3 stays pending, and a row at
the cap ends failed with retry_count 4); rows at or above the cap are
excluded from get_pending_messages. -/
theorem retry_cap_amended (s : PushState) (mid : Nat) (err : String) (m : QueuedMessage)
    (hm : s.message_queue.find? (fun x => x.id == mid) = some m) :
    (∀ x ∈ (mark_failed s mid err).message_queue, x.id = mid →
      x.retry_count = m.retry_count + 1 ∧
      x.status = (if m.retry_count ≥ 3 then .failed else .pending) ∧
      x.error_message = some err) ∧
    (m.retry_count = 3 → ∀ x ∈ (mark_failed s mid err).message_queue, x.id = mid →
      x.status = .failed ∧ x.retry_count = 4) ∧
    (∀ x ∈ get_pending_messages s, x.status = .pending ∧ x.retry_count < 3) := by
  have hr : (((s.message_queue.find? fun x => x.id == mid).map
      QueuedMessage.retry_count).getD 0) = m.retry_count := by
    rw [hm]; rfl
  have main : ∀ x ∈ (mark_failed s mid err).message_queue, x.id = mid →
      x.retry_count = m.retry_count + 1 ∧
      x.status = (if m.retry_count ≥ 3 then .failed else .pending) ∧
      x.error_message = some err := by
    intro x hx hxid
    unfold mark_failed at hx
    rw [List.mem_map] at hx
    obtain ⟨y, hy, rfl⟩ := hx
    by_cases hyid : (y.id == mid) = true
    · simp [hyid, hr]
    · rw [Bool.not_eq_true] at hyid
      simp only [hyid, Bool.false_eq_true, if_false] at hxid
      exact absurd hxid (by simpa using hyid)
  refine ⟨main, ?_, ?_⟩
  · intro h3 x hx hxid
    have := main x hx hxid
    rw [h3] at this
    simp only [ge_iff_le, Nat.le_refl, if_true] at this
    exact ⟨this.2.1, this.1⟩
  · intro x hx
    unfold get_pending_messages at hx
    have hx2 := List.mem_of_mem_take hx
    have hx3 := (List.mergeSort_perm _ _).mem_iff.mp hx2
    have hx4 := List.mem_filter.mp hx3
    have := hx4.2
    rw [Bool.and_eq_true, beq_iff_eq] at this
    exact ⟨this.1, by simpa using this.2⟩

/-- Witness for C5 amended: the concrete row at retry_count 2 gets
retry_count 3 and stays pending. -/
theorem retry_cap_amended_witness :
    (wRetryState.message_queue.find? (fun x => x.id == 0) = some wRetryRow) ∧
    (∀ x ∈ (mark_failed wRetryState 0 "boom").message_queue, x.id = 0 →
      x.retry_count = wRetryRow.retry_count + 1 ∧
      x.status = (if wRetryRow.retry_count ≥ 3 then .failed else .pending) ∧
      x.error_message = some "boom") :=
  ⟨by decide, (retry_cap_amended wRetryState 0 "boom" wRetryRow (by decide)).1⟩

/-- C6, stop-loss precedence: for a trade found in the table with a
recorded non-zero entry price, whenever pnl_pct is at or below the
stop-loss threshold, update_position_price reports stop_loss with sell
percentage 100; the take-profit thresholds and the bought status are
universally quantified, so the conclusion holds even when pnl_pct also
satisfies a take-profit rule. -/
theorem stop_loss_precedence (trades : List Trade) (tid : Nat) (cp ep : ℚ) (t : Trade)
    (hfind : trades.find? (fun x => x.id == tid) = some t)
    (_hstatus : t.status = .bought)
    (hep : t.entry_price = some ep) (hep0 : ep ≠ 0)
    (hsl : (cp - ep) / ep * 100 ≤ t.stop_loss_pct) :
    (update_position_price trades tid cp).2.action_needed = some .stop_loss ∧
    (update_position_price trades tid cp).2.sell_percentage = 100 := by
  have hmiss : entryPriceMissing t = false := by
    rw [entryPriceMissing, hep]
    simpa using hep0
  unfold update_position_price
  rw [hfind]
  simp only [hmiss, Bool.false_eq_true, if_false, hep, Option.getD_some]
  rw [if_pos hsl]
  exact ⟨rfl, rfl⟩

/-- Witness for C6 at the spec's numbers: entry 0.001, stop-loss -30,
TP1 100, current price 0.0006 gives pnl -40 and the stop-loss action,
although TP1 would not fire here the thresholds are the spec's. -/
theorem stop_loss_precedence_witness :
    ((6/10000 - 1/1000 : ℚ) / (1/1000) * 100 ≤ wTradeSL.stop_loss_pct) ∧
    (update_position_price [wTradeSL] 1 (6/10000)).2.action_needed = some .stop_loss ∧
    (update_position_price [wTradeSL] 1 (6/10000)).2.sell_percentage = 100 :=
  ⟨by norm_num [wTradeSL],
   stop_loss_precedence [wTradeSL] 1 (6/10000) (1/1000) wTradeSL rfl rfl rfl
     (by norm_num) (by norm_num [wTradeSL])⟩

lemma find?_map_id_pres (F : Channel → Channel) (hid : ∀ c, (F c).id = c.id)
    (l : List Channel) (ch : String) :
    (l.map F).find? (fun c => c.id == ch) = (l.find? fun c => c.id == ch).map F := by
  rw [List.find?_map]
  have hpred : ((fun c : Channel => c.id == ch) ∘ F) = fun c : Channel => c.id == ch := by
    funext c
    simp [Function.comp, hid c]
  rw [hpred]

lemma getCursor_advanceCursor (s : PushState) (ch f : String) (t : Int)
    (h : ((s.channels.find? fun c => c.id == ch)).isSome = true) :
    getCursor (advanceCursor s ch f t) ch = some f := by
  obtain ⟨c, hc⟩ := Option.isSome_iff_exists.mp h
  have hp := List.find?_some hc
  unfold getCursor advanceCursor
  rw [find?_map_id_pres _ (fun c => by by_cases hcc : (c.id == ch) = true <;> simp [hcc]) _ _, hc]
  simp [beq_iff_eq.mp hp]

lemma getCursor_incrementMessageCount (s : PushState) (ch2 ch : String) :
    getCursor (incrementMessageCount s ch2) ch = getCursor s ch := by
  unfold getCursor incrementMessageCount
  rw [find?_map_id_pres _ (fun c => by by_cases hcc : (c.id == ch2) = true <;> simp [hcc]) _ _]
  cases hc : s.channels.find? fun c => c.id == ch with
  | none => rfl
  | some c =>
    show (if c.id == ch2 then
        ({ c with message_count := c.message_count + 1 } : Channel)
      else c).last_message_fingerprint = c.last_message_fingerprint
    split <;> rfl

lemma isSome_find?_advanceCursor (s : PushState) (ch f : String) (t : Int) (ch2 : String) :
    (((advanceCursor s ch f t).channels.find? fun c => c.id == ch2)).isSome =
      ((s.channels.find? fun c => c.id == ch2)).isSome := by
  unfold advanceCursor
  rw [find?_map_id_pres _ (fun c => by by_cases hcc : (c.id == ch) = true <;> simp [hcc]) _ _]
  cases s.channels.find? fun c => c.id == ch2 <;> rfl

lemma isSome_find?_incrementMessageCount (s : PushState) (ch ch2 : String) :
    (((incrementMessageCount s ch).channels.find? fun c => c.id == ch2)).isSome =
      ((s.channels.find? fun c => c.id == ch2)).isSome := by
  unfold incrementMessageCount
  rw [find?_map_id_pres _ (fun c => by by_cases hcc : (c.id == ch) = true <;> simp [hcc]) _ _]
  cases s.channels.find? fun c => c.id == ch2 <;> rfl

/-- C9 counterexample: at a concrete state where routing skips the
message, the push leaves zero QueuedMessage rows for the fingerprint,
refuting that a skipped message still has exactly one row with a
terminal status; the cursor is advanced all the same. -/
theorem skip_not_nonevent_counterexample :
    (push_message wPushState wClassifySkip "ch1" "f1" "gm" "alice" 5).2 = .skipped ∧
    getCursor (push_message wPushState wClassifySkip "ch1" "f1" "gm" "alice" 5).1 "ch1" =
      some "f1" ∧
    ((push_message wPushState wClassifySkip "ch1" "f1" "gm" "alice" 5).1.message_queue.countP
      fun m => m.fingerprint == "f1") = 0 := by
  decide

/-- C9 amended, skip advances the cursor: whenever push_message answers
skipped, the channel cursor is set to the message's fingerprint but the
message queue is left exactly as it was, so a skipped fingerprint has
no QueuedMessage row created for it. -/
theorem skip_advances_cursor_amended (s : PushState)
    (classify : String → String → ParseResult) (ch f txt author : String) (t : Int)
    (hch : ((s.channels.find? fun c => c.id == ch)).isSome = true)
    (hskip : (push_message s classify ch f txt author t).2 = .skipped) :
    getCursor (push_message s classify ch f txt author t).1 ch = some f ∧
    (push_message s classify ch f txt author t).1.message_queue = s.message_queue := by
  by_cases h1 : (s.message_queue.any fun m => m.fingerprint == f) = true
  · unfold push_message at hskip
    rw [if_pos h1] at hskip
    simp at hskip
  · rw [Bool.not_eq_true] at h1
    unfold push_message at hskip ⊢
    simp only [h1, Bool.false_eq_true, if_false] at hskip ⊢
    by_cases h2 : ((if (s.tracked_authors.any fun u => u.toLower == author.toLower) = true
        then { type := SignalType.alpha_call, formatted := some txt }
        else if s.parserEnabled = true then classify txt author
        else { type := SignalType.alpha_call, formatted := some txt }).type ==
          SignalType.skip &&
        !(s.tracked_authors.any fun u => u.toLower == author.toLower)) = true
    · rw [if_pos h2]
      exact ⟨getCursor_advanceCursor s ch f t hch, rfl⟩
    · rw [if_neg h2] at hskip
      simp at hskip

/-- Witness for C9 amended at the concrete skip scenario. -/
theorem skip_advances_cursor_amended_witness :
    (push_message wPushState wClassifySkip "ch1" "f2" "hello" "alice" 9).2 = .skipped ∧
    getCursor (push_message wPushState wClassifySkip "ch1" "f2" "hello" "alice" 9).1 "ch1" =
      some "f2" ∧
    (push_message wPushState wClassifySkip "ch1" "f2" "hello" "alice" 9).1.message_queue =
      wPushState.message_queue :=
  ⟨by decide,
   skip_advances_cursor_amended wPushState wClassifySkip "ch1" "f2" "hello" "alice" 9
     (by decide) (by decide)⟩

/-- C3 counterexample: a non-2xx classifier response makes parseSignal
report the skip category, and the non-duplicate message is then
skipped with no QueuedMessage row, refuting that every classifier
failure relays the message. -/
theorem classifier_fail_open_counterexample :
    parseSignal .httpError "gm" = { type := .skip, formatted := none } ∧
    (push_message wPushState wClassifyHttpFail "ch1" "f1" "gm" "alice" 5).2 = .skipped ∧
    (push_message wPushState wClassifyHttpFail "ch1" "f1" "gm" "alice" 5).1.message_queue = [] := by
  decide

/-- C3 amended, classifier fail-open on thrown errors: when the
classifier call throws (network error or timeout), parseSignal reports
alpha_call with the original text, and a non-duplicate message from an
untracked author with the classifier enabled is accepted into the
queue with its original text; only a non-2xx response is mapped to the
skip category and drops the message. -/
theorem classifier_fail_open_amended (s : PushState) (ch f txt author : String) (t : Int)
    (hnew : (s.message_queue.any fun m => m.fingerprint == f) = false)
    (htr : (s.tracked_authors.any fun u => u.toLower == author.toLower) = false)
    (hpe : s.parserEnabled = true) :
    (push_message s (fun mt _ => parseSignal .netError mt) ch f txt author t).2 =
      .accepted .alpha_call ∧
    (push_message s (fun mt _ => parseSignal .netError mt) ch f txt author t).1.message_queue =
      s.message_queue ++
        [{ id := s.nextId, fingerprint := f, channel_id := ch, message_text := txt,
           author_name := author, status := .pending, retry_count := 0,
           error_message := none, created_at := t }] := by
  unfold push_message
  simp only [hnew, Bool.false_eq_true, if_false, htr, hpe, if_true, parseSignal]
  simp only [show ((SignalType.alpha_call == SignalType.skip) && !false) = false from rfl,
    Bool.false_eq_true, if_false]
  refine ⟨trivial, ?_⟩
  simp only [finalText, ite_self]
  rfl

lemma push_message_duplicate (s : PushState) (classify : String → String → ParseResult)
    (ch f txt author : String) (t : Int)
    (h : (s.message_queue.any fun m => m.fingerprint == f) = true) :
    push_message s classify ch f txt author t = (advanceCursor s ch f t, .duplicate) := by
  unfold push_message
  rw [if_pos h]

/-- C2 counterexample: at a concrete state whose classifier routes the
message to skip, pushing the same fingerprint twice creates no
QueuedMessage row at all and the second call does not answer
duplicate, refuting the unrestricted idempotent-acceptance claim. -/
theorem push_idempotence_counterexample :
    ((push_message (push_message wPushState wClassifySkip "ch1" "f1" "gm" "alice" 5).1
        wClassifySkip "ch1" "f1" "gm" "alice" 6).2 ≠ .duplicate) ∧
    (((push_message (push_message wPushState wClassifySkip "ch1" "f1" "gm" "alice" 5).1
        wClassifySkip "ch1" "f1" "gm" "alice" 6).1.message_queue.countP
      fun m => m.fingerprint == "f1") ≠ 1) := by
  decide

/-- C2 amended, idempotent acceptance: when the first push of a
fingerprint is accepted (not routed to skip), exactly one QueuedMessage
row with that fingerprint exists afterwards, the cursor holds the
fingerprint, and a second push of the same fingerprint answers
duplicate, adds no row, and leaves the cursor at the fingerprint. -/
theorem push_idempotence_amended (s : PushState)
    (classify : String → String → ParseResult) (ch f txt author : String)
    (t1 t2 : Int) (σ : SignalType)
    (hch : ((s.channels.find? fun c => c.id == ch)).isSome = true)
    (hnew : (s.message_queue.countP fun m => m.fingerprint == f) = 0)
    (hacc : (push_message s classify ch f txt author t1).2 = .accepted σ) :
    ((push_message s classify ch f txt author t1).1.message_queue.countP
        fun m => m.fingerprint == f) = 1 ∧
    getCursor (push_message s classify ch f txt author t1).1 ch = some f ∧
    (push_message (push_message s classify ch f txt author t1).1 classify ch f txt author t2).2 =
      .duplicate ∧
    (push_message (push_message s classify ch f txt author t1).1 classify ch f txt
        author t2).1.message_queue =
      (push_message s classify ch f txt author t1).1.message_queue ∧
    getCursor (push_message (push_message s classify ch f txt author t1).1 classify ch f txt
        author t2).1 ch = some f := by
  have hany : (s.message_queue.any fun m => m.fingerprint == f) = false := by
    rw [List.any_eq_false]
    exact List.countP_eq_zero.mp hnew
  obtain ⟨row, hq1, hrowf, hcur1, hch1⟩ : ∃ row : QueuedMessage,
      (push_message s classify ch f txt author t1).1.message_queue =
        s.message_queue ++ [row] ∧
      row.fingerprint = f ∧
      getCursor (push_message s classify ch f txt author t1).1 ch = some f ∧
      (((push_message s classify ch f txt author t1).1.channels.find?
        fun c => c.id == ch)).isSome = true := by
    unfold push_message at hacc ⊢
    simp only [hany, Bool.false_eq_true, if_false] at hacc ⊢
    by_cases h2 : ((if (s.tracked_authors.any fun u => u.toLower == author.toLower) = true
        then { type := SignalType.alpha_call, formatted := some txt }
        else if s.parserEnabled = true then classify txt author
        else { type := SignalType.alpha_call, formatted := some txt }).type ==
          SignalType.skip &&
        !(s.tracked_authors.any fun u => u.toLower == author.toLower)) = true
    · rw [if_pos h2] at hacc
      simp at hacc
    · rw [if_neg h2]
      dsimp only
      refine ⟨_, rfl, rfl, ?_, ?_⟩
      · rw [getCursor_incrementMessageCount]
        exact getCursor_advanceCursor _ ch f t1 hch
      · rw [isSome_find?_incrementMessageCount, isSome_find?_advanceCursor]
        exact hch
  have hany2 : ((push_message s classify ch f txt author t1).1.message_queue.any
      fun m => m.fingerprint == f) = true := by
    rw [hq1, List.any_append]
    simp [hrowf]
  refine ⟨?_, hcur1, ?_, ?_, ?_⟩
  · rw [hq1, List.countP_append, hnew]
    simp [List.countP_cons, hrowf]
  · rw [push_message_duplicate _ _ _ _ _ _ _ hany2]
  · rw [push_message_duplicate _ _ _ _ _ _ _ hany2]
    rfl
  · rw [push_message_duplicate _ _ _ _ _ _ _ hany2]
    exact getCursor_advanceCursor _ ch f t2 hch1

/-- Witness for C2 amended at a concrete accepted push. -/
theorem push_idempotence_amended_witness :
    ((wPushState.message_queue.countP fun m => m.fingerprint == "f1") = 0) ∧
    ((push_message wPushState wClassifyCa "ch1" "f1" "gm" "alice" 5).1.message_queue.countP
        fun m => m.fingerprint == "f1") = 1 ∧
    (push_message (push_message wPushState wClassifyCa "ch1" "f1" "gm" "alice" 5).1
        wClassifyCa "ch1" "f1" "gm" "alice" 6).2 = .duplicate :=
  ⟨by decide,
   (push_idempotence_amended wPushState wClassifyCa "ch1" "f1" "gm" "alice" 5 6 .ca
     (by decide) (by decide) (by decide)).1,
   (push_idempotence_amended wPushState wClassifyCa "ch1" "f1" "gm" "alice" 5 6 .ca
     (by decide) (by decide) (by decide)).2.2.1⟩

/-- Witness for C3 amended: the thrown-error path accepts the message
with its original text at a concrete state. -/
theorem classifier_fail_open_amended_witness :
    (push_message wPushState (fun mt _ => parseSignal .netError mt) "ch1" "f1" "gm" "alice" 5).2 =
      .accepted .alpha_call ∧
    (push_message wPushState (fun mt _ => parseSignal .netError mt) "ch1" "f1" "gm" "alice" 5).1.message_queue =
      wPushState.message_queue ++
        [{ id := wPushState.nextId, fingerprint := "f1", channel_id := "ch1",
           message_text := "gm", author_name := "alice", status := .pending,
           retry_count := 0, error_message := none, created_at := 5 }] :=
  classifier_fail_open_amended wPushState "ch1" "f1" "gm" "alice" 5
    (by decide) (by decide) (by decide)

/-- C4, ban precedence (spec-modelled routing policy): an author on the
banned list is skipped regardless of tracked membership, the channel
bypass flag, the classifier-enabled flag, and the classifier outcome. -/
theorem ban_precedence (banned tracked : List String) (author : String)
    (bypassFlag parserEnabled : Bool) (classifier : ClassifierCall) (text : String)
    (hban : (banned.any fun u => u.toLower == author.toLower) = true) :
    (route banned tracked author bypassFlag parserEnabled classifier text).kind = .skip := by
  unfold route
  rw [if_pos hban]

/-- Witness for C4: a banned author who is also tracked, with the
bypass flag set, the classifier enabled, and a relay-worthy classifier
result, is still skipped. -/
theorem ban_precedence_witness :
    ((["spammer"].any fun u => u.toLower == "spammer".toLower) = true) ∧
    (route ["spammer"] ["spammer"] "spammer" true true
      (.result .ca (some "text")) "hello").kind = .skip :=
  ⟨by simp, ban_precedence ["spammer"] ["spammer"] "spammer" true true
    (.result .ca (some "text")) "hello" (by simp)⟩

/-- C7, trailing stop (spec-modelled evaluator): with the trailing stop
enabled and the price at or below highest_price times
(1 - trailing_stop_pct/100), evaluation yields trailing_stop selling
100 whenever the stop-loss rule did not fire, independently of the
time-exit deadline, the status, and the take-profit thresholds; and
when the stop-loss condition also holds, stop_loss wins, placing the
trailing rule second in the precedence order. -/
theorem trailing_stop_trigger (t : Trade) (cp ep hp : ℚ) (now : Int)
    (hep : t.entry_price = some ep)
    (hen : t.trailing_stop_enabled = true)
    (hhp : t.highest_price = some hp)
    (hcp : cp ≤ hp * (1 - t.trailing_stop_pct.getD 0 / 100)) :
    (¬((cp - ep) / ep * 100 ≤ t.stop_loss_pct) →
      evaluateTriggers t cp now = { action := .trailing_stop, sell_percentage := 100 }) ∧
    ((cp - ep) / ep * 100 ≤ t.stop_loss_pct →
      evaluateTriggers t cp now = { action := .stop_loss, sell_percentage := 100 }) := by
  have htr : trailingHit t cp = true := by
    rw [trailingHit, hen, hhp]
    simpa using hcp
  constructor
  · intro hsl
    unfold evaluateTriggers
    dsimp only
    rw [hep]
    simp only [Option.getD_some]
    rw [if_neg hsl, if_pos htr]
  · intro hsl
    unfold evaluateTriggers
    dsimp only
    rw [hep]
    simp only [Option.getD_some]
    rw [if_pos hsl]

/-- Witness for C7: entry 1, highest 2, trailing 15%, stop-loss -50%,
price 1.6 is below the 1.7 trailing threshold while pnl 60% is above
the stop-loss, so the trailing stop fires. -/
theorem trailing_stop_trigger_witness :
    (¬(((8/5 : ℚ) - 1) / 1 * 100 ≤ wTradeTrail.stop_loss_pct)) ∧
    ((8/5 : ℚ) ≤ 2 * (1 - wTradeTrail.trailing_stop_pct.getD 0 / 100)) ∧
    evaluateTriggers wTradeTrail (8/5) 0 =
      { action := .trailing_stop, sell_percentage := 100 } :=
  ⟨by norm_num [wTradeTrail, wTradeSL],
   by norm_num [wTradeTrail, wTradeSL],
   (trailing_stop_trigger wTradeTrail (8/5) 1 2 0 rfl rfl rfl
     (by norm_num [wTradeTrail, wTradeSL])).1 (by norm_num [wTradeTrail, wTradeSL])⟩

lemma highest_price_step (t : Trade) (cp h : ℚ) (hsome : t.highest_price = some h) :
    ∃ h2, (applyPriceTick t cp).highest_price = some h2 ∧ h ≤ h2 := by
  simp only [applyPriceTick, hsome]
  by_cases hgt : cp > h
  · rw [if_pos hgt]
    exact ⟨cp, rfl, le_of_lt hgt⟩
  · rw [if_neg hgt]
    exact ⟨h, rfl, le_refl h⟩

/-- C8, highest-price ratchet (spec-modelled price tick): every tick
writes current_price; highest_price becomes the new price when it was
unset or exceeded; once populated it never decreases, on one tick or
across any sequence of ticks. -/
theorem highest_price_ratchet (t : Trade) (cp : ℚ) :
    (applyPriceTick t cp).current_price = some cp ∧
    (t.highest_price = none → (applyPriceTick t cp).highest_price = some cp) ∧
    (∀ h : ℚ, t.highest_price = some h → cp > h →
      (applyPriceTick t cp).highest_price = some cp) ∧
    (∀ h : ℚ, t.highest_price = some h →
      ∃ h2, (applyPriceTick t cp).highest_price = some h2 ∧ h ≤ h2) ∧
    (∀ (cps : List ℚ) (h : ℚ), t.highest_price = some h →
      ∃ h2, (cps.foldl applyPriceTick t).highest_price = some h2 ∧ h ≤ h2) := by
  refine ⟨rfl, ?_, ?_, fun h hsome => highest_price_step t cp h hsome, ?_⟩
  · intro h0
    simp [applyPriceTick, h0]
  · intro h hsome hgt
    simp only [applyPriceTick, hsome]
    rw [if_pos hgt]
  · intro cps
    induction cps generalizing t with
    | nil => exact fun h hsome => ⟨h, hsome, le_refl h⟩
    | cons c rest ih =>
      intro h hsome
      obtain ⟨h1, hh1, hle1⟩ := highest_price_step t c h hsome
      obtain ⟨h2, hh2, hle2⟩ := ih (applyPriceTick t c) h1 hh1
      exact ⟨h2, by simpa [List.foldl] using hh2, le_trans hle1 hle2⟩

/-- Witness for C8: a tick at price 3 over a stored highest of 2 writes
current_price 3 and ratchets highest_price to 3. -/
theorem highest_price_ratchet_witness :
    (applyPriceTick wTradeTrail 3).current_price = some 3 ∧
    (applyPriceTick wTradeTrail 3).highest_price = some 3 :=
  ⟨(highest_price_ratchet wTradeTrail 3).1,
   (highest_price_ratchet wTradeTrail 3).2.2.1 2 rfl (by norm_num)⟩

/-- C10, duplicate-trade suppression: with an enabled config for the
channel and an extracted address, execute_trade rejects with
duplicate_trade and writes nothing when a trade for that address was
created within the last five minutes, and otherwise creates exactly one
new pending_sigma trade snapshotting the config values. -/
theorem duplicate_trade_suppression (extractCA extractSymbol : String → Option String)
    (s : TradeState) (msg chname chid fp author : String) (now : Int)
    (config : TradingConfig) (ca : String)
    (hconfig : s.trading_config.find? (fun c => c.channel_pattern == chname && c.enabled) =
      some config)
    (hca : extractCA msg = some ca) :
    ((∃ t ∈ s.trades, t.contract_address = ca ∧ now - 5 * 60 * 1000 ≤ t.created_at) →
      (execute_trade extractCA extractSymbol s msg chname chid fp author now).1 = s ∧
      ∃ i, (execute_trade extractCA extractSymbol s msg chname chid fp author now).2 =
        .duplicateTrade i) ∧
    ((∀ t ∈ s.trades, t.contract_address = ca → ¬(now - 5 * 60 * 1000 ≤ t.created_at)) →
      (execute_trade extractCA extractSymbol s msg chname chid fp author now).2 =
        .created s.nextTradeId ∧
      ∃ newt : Trade,
        (execute_trade extractCA extractSymbol s msg chname chid fp author now).1.trades =
          s.trades ++ [newt] ∧
        newt.contract_address = ca ∧ newt.status = .pending_sigma ∧
        newt.allocation_sol = config.allocation_sol ∧
        newt.stop_loss_pct = config.stop_loss_pct ∧
        newt.take_profit_1_pct = config.take_profit_1_pct ∧
        newt.take_profit_2_pct = config.take_profit_2_pct ∧
        newt.created_at = now) := by
  constructor
  · intro hdup
    unfold execute_trade
    rw [hconfig, hca]
    dsimp only
    have hex : ∃ x ∈ s.trades, (fun t => t.contract_address == ca &&
        decide (now - 5 * 60 * 1000 ≤ t.created_at)) x = true := by
      obtain ⟨t, ht, h1, h2⟩ := hdup
      exact ⟨t, ht, by simp [h1]; omega⟩
    obtain ⟨t0, hfind⟩ := Option.isSome_iff_exists.mp (List.find?_isSome.mpr hex)
    rw [hfind]
    exact ⟨rfl, t0.id, rfl⟩
  · intro hnodup
    unfold execute_trade
    rw [hconfig, hca]
    dsimp only
    have hfind : s.trades.find? (fun t => t.contract_address == ca &&
        decide (now - 5 * 60 * 1000 ≤ t.created_at)) = none := by
      rw [List.find?_eq_none]
      intro x hx
      simp only [Bool.and_eq_true, beq_iff_eq, decide_eq_true_eq, not_and]
      exact hnodup x hx
    rw [hfind]
    exact ⟨rfl, _, rfl, rfl, rfl, rfl, rfl, rfl, rfl, rfl⟩

/-- Witness for C10: a trade on the same address created 1 second ago
makes execute_trade reject with duplicate_trade and leave the state
unchanged. -/
theorem duplicate_trade_suppression_witness :
    (∃ t ∈ wTradeState.trades, t.contract_address = "CA123" ∧
      (1000 : Int) - 5 * 60 * 1000 ≤ t.created_at) ∧
    (execute_trade wExtractCA wExtractNone wTradeState "buy CA123" "alpha" "ch1" "f1"
      "alice" 1000).1 = wTradeState ∧
    ∃ i, (execute_trade wExtractCA wExtractNone wTradeState "buy CA123" "alpha" "ch1" "f1"
      "alice" 1000).2 = .duplicateTrade i :=
  ⟨by decide,
   (duplicate_trade_suppression wExtractCA wExtractNone wTradeState "buy CA123" "alpha"
     "ch1" "f1" "alice" 1000 wConfig "CA123" rfl rfl).1 (by decide)⟩

end DiscordStream
